import Mathlib

/-
  Verification development for the dev-launch Process & Service Supervision
  subsystem (src-tauri/src: process.rs, webhook_server.rs, git.rs).

  Shallow embedding conventions:
  * Rust strings are modelled as `List Char`; `s2l` converts a Lean string
    literal to that representation.
  * Machine integers (u16, u32, u64) are modelled as `Nat` (the code never
    exercises overflow on these; parse bounds are checked explicitly).
  * The outcomes of OS interactions (exit status of the spawned `kill`
    command, the ngrok child's kill/wait results, the ngrok status HTTP
    round-trip) are passed in explicitly as oracle values, so each function
    is a pure function of its inputs and the modelled environment.
  * Fallible Rust functions returning `Result<T, String>` become
    `Except String T`.
-/

namespace DevLaunch

def s2l (s : String) : List Char := s.data

/-! ## Log classifier endpoint detection (process.rs, detect_url)

`URL_REGEX = https?://(?:localhost|127\.0\.0\.1|0\.0\.0\.0):(\d+)` and
`PORT_REGEX = (?i)(?:listening|ready|running|started|server|local)\s+(?:on|at)?\s*(?:port\s+)?:?(\d{4,5})`
are embedded as hand-rolled matchers with the regex crate's leftmost-first
semantics: scan start positions left to right; at a position, alternations
are tried in written order and optional groups greedily (consume first,
fall back to skipping).  `\d` is modelled as ASCII digits and `\s` as
`Char.isWhitespace`, adequate for the ASCII log lines involved. -/

def hostAlts : List (List Char) := [s2l "localhost", s2l "127.0.0.1", s2l "0.0.0.0"]

/-- Match `URL_REGEX` against a prefix of `s`; returns (whole match, digit group). -/
def matchURLAt (s : List Char) : Option (List Char × List Char) :=
  if (s2l "http").isPrefixOf s then
    let r := s.drop 4
    let schemeExtra : Option Nat :=
      if (s2l "s://").isPrefixOf r then some 4
      else if (s2l "://").isPrefixOf r then some 3
      else none
    match schemeExtra with
    | none => none
    | some k =>
      let r2 := r.drop k
      match hostAlts.find? (fun h => h.isPrefixOf r2) with
      | none => none
      | some h =>
        match r2.drop h.length with
        | ':' :: r4 =>
          let ds := r4.takeWhile Char.isDigit
          if ds = [] then none
          else some (s.take (4 + k + h.length + 1 + ds.length), ds)
        | _ => none
  else none

/-- Leftmost match of `URL_REGEX` in the whole line (Regex::captures). -/
def urlCapture : List Char → Option (List Char × List Char)
  | [] => none
  | c :: t =>
    match matchURLAt (c :: t) with
    | some r => some r
    | none => urlCapture t

/-- Case-insensitive prefix test; the pattern is given in lowercase. -/
def ciIsPrefix : List Char → List Char → Bool
  | [], _ => true
  | _ :: _, [] => false
  | p :: ps, c :: cs => (c.toLower == p) && ciIsPrefix ps cs

def kwAlts : List (List Char) :=
  [s2l "listening", s2l "ready", s2l "running", s2l "started", s2l "server", s2l "local"]

/-- `:?(\d{4,5})` with the group's greedy width (5 if available, else 4). -/
def colonDigits (r : List Char) : Option (List Char) :=
  let r2 := match r with
    | ':' :: t => t
    | _ => r
  let ds := r2.takeWhile Char.isDigit
  if 4 ≤ ds.length then some (ds.take 5) else none

/-- `\s*(?:port\s+)?:?(\d{4,5})` (the part after the optional on/at). -/
def afterOnAt (r : List Char) : Option (List Char) :=
  let r3 := r.dropWhile Char.isWhitespace
  let tryPort : Option (List Char) :=
    if ciIsPrefix (s2l "port") r3 then
      let r4 := r3.drop 4
      let ws2 := r4.takeWhile Char.isWhitespace
      if ws2 = [] then none
      else colonDigits (r4.drop ws2.length)
    else none
  match tryPort with
  | some d => some d
  | none => colonDigits r3

/-- Match `PORT_REGEX` against a prefix of `s`; returns the digit group. -/
def matchPortAt (s : List Char) : Option (List Char) :=
  match kwAlts.find? (fun k => ciIsPrefix k s) with
  | none => none
  | some k =>
    let r := s.drop k.length
    let ws := r.takeWhile Char.isWhitespace
    if ws = [] then none
    else
      let r1 := r.drop ws.length
      let withOnAt : Option (List Char) :=
        if ciIsPrefix (s2l "on") r1 then afterOnAt (r1.drop 2)
        else if ciIsPrefix (s2l "at") r1 then afterOnAt (r1.drop 2)
        else none
      match withOnAt with
      | some d => some d
      | none => afterOnAt r1

/-- Leftmost match of `PORT_REGEX` in the whole line. -/
def portCapture : List Char → Option (List Char)
  | [] => none
  | c :: t =>
    match matchPortAt (c :: t) with
    | some d => some d
    | none => portCapture t

/-- Rust `str::parse::<u16>` restricted to the digit strings produced by the
matchers: succeeds iff nonempty, all digits, and the value fits in 16 bits. -/
def parseU16 (ds : List Char) : Option Nat :=
  if ds = [] then none
  else if ds.all Char.isDigit then
    let v := ds.foldl (fun acc c => acc * 10 + (c.toNat - 48)) 0
    if v ≤ 65535 then some v else none
  else none

/-- The bare-port fallback branch of `detect_url`. -/
def portFallback (msg : List Char) : Option (List Char × Nat) :=
  match portCapture msg with
  | some ds =>
    match parseU16 ds with
    | some port => some (s2l ("http://localhost:" ++ Nat.repr port), port)
    | none => none
  | none => none

/-- process.rs `detect_url`: URL pattern first; if it is absent (or its port
does not parse as u16) fall back to the bare-port heuristic. -/
def detect_url (msg : List Char) : Option (List Char × Nat) :=
  match urlCapture msg with
  | some (full, ds) =>
    match parseU16 ds with
    | some port => some (full, port)
    | none => portFallback msg
  | none => portFallback msg

/-! ## Process supervisor kill path (process.rs)

`kill_process_internal` shells out to the `kill` utility twice (process
group first, then the bare pid).  Each invocation's outcome is an oracle:
`none` models an io::Error spawning the command, `some b` models an exit
status with success flag `b`.  The OS error text for the bare-pid attempt
is carried in `singleErr`.  The PID registry (a `HashSet<u32>` with no
duplicates) is modelled as a duplicate-free `List Nat`. -/

instance {ε α : Type} [DecidableEq ε] [DecidableEq α] : DecidableEq (Except ε α) := fun x y =>
  match x, y with
  | .ok a, .ok b =>
    if h : a = b then .isTrue (by rw [h]) else .isFalse (by simp [h])
  | .error a, .error b =>
    if h : a = b then .isTrue (by rw [h]) else .isFalse (by simp [h])
  | .ok _, .error _ => .isFalse (fun hc => Except.noConfusion hc)
  | .error _, .ok _ => .isFalse (fun hc => Except.noConfusion hc)

structure KillEnv where
  groupStatus : Option Bool
  singleStatus : Option Bool
  singleErr : String
deriving DecidableEq

/-- process.rs `kill_process_internal` (unix path): group kill success wins;
otherwise the bare-pid attempt's status is returned, and a spawn failure of
that attempt becomes an error. -/
def kill_process_internal (env : KillEnv) : Except String Bool :=
  match env.groupStatus with
  | some true => .ok true
  | _ =>
    match env.singleStatus with
    | some s => .ok s
    | none => .error ("Failed to kill: " ++ env.singleErr)

/-- `result.unwrap_or(false)` / `result.as_ref().unwrap_or(&false) == &true`. -/
def killOk (r : Except String Bool) : Bool :=
  match r with
  | .ok b => b
  | .error _ => false

/-- process.rs `kill_process`: run the internal kill, remove the pid from the
registry only when the result is `Ok(true)`, and return the result as-is. -/
def kill_process (env : KillEnv) (pid : Nat) (reg : List Nat) :
    Except String Bool × List Nat :=
  let result := kill_process_internal env
  let reg2 := if killOk result then reg.erase pid else reg
  (result, reg2)

/-- process.rs `kill_all_processes` (and the identical
`kill_all_processes_internal`): snapshot the registry, run the internal kill
on every pid counting `unwrap_or(false)` successes, then clear the registry
unconditionally.  `envf` gives each pid's kill-command outcomes. -/
def kill_all_processes (envf : Nat → KillEnv) (reg : List Nat) : Nat × List Nat :=
  let pids := reg
  let killed := pids.foldl
    (fun acc pid => if killOk (kill_process_internal (envf pid)) then acc + 1 else acc) 0
  (killed, [])

/-! ## Webhook capture server (webhook_server.rs)

The request body is modelled as a byte list (`List Nat`); the
`from_utf8_lossy` string conversion is abstracted away (the stored body is
the byte sequence that survived `axum::body::to_bytes`).  Header extraction
keeps the (name, value) pairs.  The generated uuid and the capture
timestamp are inputs. -/

structure WebhookEvent where
  id : String
  timestamp : Int
  path : String
  method : String
  headers : List (String × String)
  body : List Nat
  query : String
deriving DecidableEq

def bodyLimit : Nat := 1024 * 1024

/-- `axum::body::to_bytes(body, limit)`: yields the bytes when the body is
within the limit and an error when it exceeds it (the body is not
truncated by axum; the length-limit failure is an `Err`). -/
def to_bytes (body : List Nat) (limit : Nat) : Except Unit (List Nat) :=
  if body.length ≤ limit then .ok body else .error ()

/-- The buffer append in `handle_webhook`: `events.push(event)` followed by
`if events.len() > 100 { events.remove(0); }`. -/
def storePush (events : List WebhookEvent) (e : WebhookEvent) : List WebhookEvent :=
  let events2 := events ++ [e]
  if 100 < events2.length then events2.drop 1 else events2

/-- webhook_server.rs `handle_webhook`: read the body through the 1 MiB
`to_bytes` cap with `unwrap_or_default()`, build the event, append it to the
buffer, and answer 200.  Returns (new buffer, emitted event, HTTP status). -/
def handle_webhook (events : List WebhookEvent)
    (method path query : String) (headers : List (String × String))
    (newId : String) (now : Int) (body : List Nat) :
    List WebhookEvent × WebhookEvent × Nat :=
  let bodyBytes := match to_bytes body bodyLimit with
    | .ok bs => bs
    | .error _ => []
  let event : WebhookEvent :=
    { id := newId, timestamp := now, path := path, method := method,
      headers := headers, body := bodyBytes, query := query }
  (storePush events event, event, 200)

/-- The `WebhookServer` singleton: shutdown channel presence, bound port,
shared event buffer. -/
structure WebhookServerS where
  shutdown_tx : Option Unit
  port : Nat
  events : List WebhookEvent
deriving DecidableEq

/-- webhook_server.rs `start_webhook_server` acting on the `SERVER` slot:
reject when a server already exists; otherwise bind (oracle `bindResult`
yields the actual bound port or the OS error) and install the new
singleton with an empty buffer. -/
def start_webhook_server (slot : Option WebhookServerS) (port : Nat)
    (bindResult : Except String Nat) :
    Except String String × Option WebhookServerS :=
  match slot with
  | some s => (.error "Server is already running", some s)
  | none =>
    match bindResult with
    | .error e =>
      (.error ("Failed to bind to port " ++ Nat.repr port ++ ": " ++ e), none)
    | .ok actualPort =>
      (.ok ("http://localhost:" ++ Nat.repr actualPort),
        some { shutdown_tx := some (), port := actualPort, events := [] })

/-- webhook_server.rs `get_webhook_events`: the buffer when a server exists,
else the empty list. -/
def get_webhook_events (slot : Option WebhookServerS) : List WebhookEvent :=
  match slot with
  | some s => s.events
  | none => []

/-! ## Tunnel manager (webhook_server.rs, ngrok commands)

An ngrok child handle carries the outcomes of `Child::kill` and
`Child::wait` as oracles. -/

structure ChildProc where
  killRes : Except String Unit
  waitRes : Except String Unit
deriving DecidableEq

/-- webhook_server.rs `stop_ngrok` acting on the `NGROK_PROCESS` slot:
`NotRunning` when empty; otherwise the child is `take()`n out of the slot
first, then killed and waited, each failure propagating as an error (with
the slot left empty in every such case). -/
def stop_ngrok (slot : Option ChildProc) : Except String Unit × Option ChildProc :=
  match slot with
  | none => (.error "ngrok is not running", none)
  | some c =>
    match c.killRes with
    | .error e => (.error ("Failed to kill ngrok: " ++ e), none)
    | .ok _ =>
      match c.waitRes with
      | .error e => (.error ("Failed to wait for ngrok: " ++ e), none)
      | .ok _ => (.ok (), none)

/-- Side effects of `start_ngrok`, in program order. -/
inductive NgrokEffect where
  | killOld
  | waitOld
  | trySpawn
deriving DecidableEq

/-- webhook_server.rs `start_ngrok`: take and terminate (kill then wait,
results ignored) any previously tracked child, then spawn the ngrok binary
(oracle `spawnRes`); a spawn failure leaves the slot empty and reports the
launch error.  The effect trace records which process operations ran. -/
def start_ngrok (slot : Option ChildProc) (spawnRes : Except String ChildProc) :
    Except String Unit × Option ChildProc × List NgrokEffect :=
  let cleanup : List NgrokEffect :=
    match slot with
    | some _ => [NgrokEffect.killOld, NgrokEffect.waitOld]
    | none => []
  match spawnRes with
  | .error e =>
    (.error ("Failed to start ngrok: " ++ e ++ ". Make sure ngrok is installed."),
      none, cleanup ++ [NgrokEffect.trySpawn])
  | .ok child => (.ok (), some child, cleanup ++ [NgrokEffect.trySpawn])

/-- The fields `get_ngrok_status` reads out of one element of the `tunnels`
array (`public_url`, `metrics.http.count`, `metrics.conns.count`); `none`
models a missing or ill-typed field, handled by the code's `unwrap_or`s. -/
structure TunnelJson where
  public_url : Option String
  http_count : Option Nat
  conns_count : Option Nat
deriving DecidableEq

/-- Outcome of the HTTP round-trip to `http://localhost:4040/api/tunnels`:
a transport failure of `send()`, or a response with a success flag and a
body whose JSON decoding either fails or yields the `tunnels` array
(`none` when the document has no `tunnels` array). -/
inductive NgrokNet where
  | sendErr (e : String)
  | resp (success : Bool) (body : Except String (Option (List TunnelJson)))
deriving DecidableEq

structure NgrokTunnelInfo where
  public_url : String
  request_count : Nat
  connection_count : Nat
deriving DecidableEq

/-- webhook_server.rs `get_ngrok_status`: `Ok(None)` immediately when no
child is tracked (the network oracle is never consulted); otherwise a
`send()` failure or a JSON decode failure is an error, a non-success HTTP
status, a missing `tunnels` array, zero tunnels, or an empty first
`public_url` yield `Ok(None)`, and otherwise the first tunnel's data is
returned. -/
def get_ngrok_status (slot : Option ChildProc) (net : NgrokNet) :
    Except String (Option NgrokTunnelInfo) :=
  match slot with
  | none => .ok none
  | some _ =>
    match net with
    | .sendErr e => .error ("Failed to query ngrok: " ++ e)
    | .resp success body =>
      if success = false then .ok none
      else
        match body with
        | .error e => .error ("Failed to parse ngrok response: " ++ e)
        | .ok none => .ok none
        | .ok (some tunnels) =>
          match tunnels.head? with
          | none => .ok none
          | some t =>
            let public_url := t.public_url.getD ""
            let request_count := t.http_count.getD 0
            let connection_count := t.conns_count.getD 0
            if public_url ≠ "" then
              .ok (some { public_url := public_url, request_count := request_count,
                          connection_count := connection_count })
            else .ok none

/-! ## Git token URL pattern matching (git.rs, pattern_matches)

Rust `String::replace` (all non-overlapping occurrences, left to right),
`starts_with`, `ends_with`, `contains`, and `split` are embedded over
`List Char`. -/

/-- Rust `String::replace` for a nonempty needle `n :: ns`: replace the
leftmost occurrence and continue after the replaced segment, non
overlapping.  The fuel argument (instantiated with the string length,
which bounds the number of steps) keeps the recursion structural. -/
def replaceAll (n : Char) (ns : List Char) (repl : List Char) : Nat → List Char → List Char
  | 0, s => s
  | _, [] => []
  | fuel + 1, c :: t =>
    if (n :: ns).isPrefixOf (c :: t) then
      repl ++ replaceAll n ns repl fuel (t.drop ns.length)
    else c :: replaceAll n ns repl fuel t

/-- Rust `String::replace` (all needles used below are nonempty). -/
def replaceStr (s needle repl : List Char) : List Char :=
  match needle with
  | [] => s
  | n :: ns => replaceAll n ns repl s.length s

/-- Rust `str::contains` with a `&str` needle (substring search). -/
def containsSub (sub : List Char) : List Char → Bool
  | [] => sub.isEmpty
  | c :: t => sub.isPrefixOf (c :: t) || containsSub sub t

/-- Rust `str::split(sep)`: always yields at least one piece. -/
def splitOnChar (sep : Char) : List Char → List (List Char)
  | [] => [[]]
  | c :: t =>
    let r := splitOnChar sep t
    if c = sep then [] :: r
    else
      match r with
      | h :: rt => (c :: h) :: rt
      | [] => [[c]]

/-- The URL normalization inside git.rs `pattern_matches`: strip
`https://`, `http://`, `git@`, `.git`, then turn `:` into `/`. -/
def normalize_url (url : List Char) : List Char :=
  replaceStr (replaceStr (replaceStr (replaceStr (replaceStr url
    (s2l "https://") []) (s2l "http://") []) (s2l "git@") []) (s2l ".git") [])
    (s2l ":") (s2l "/")

/-- git.rs `pattern_matches`. -/
def pattern_matches (pattern url : List Char) : Bool :=
  if pattern = s2l "*" then true
  else
    let normalized_url := normalize_url url
    if (s2l "/*").isSuffixOf pattern then
      pattern.dropLast.isPrefixOf normalized_url
    else if pattern.contains '*' then
      let parts := splitOnChar '*' pattern
      if parts.length = 2 then
        (parts.headD []).isPrefixOf normalized_url &&
          (parts.getD 1 []).isSuffixOf normalized_url
      else containsSub (parts.headD []) normalized_url
    else
      (normalized_url == pattern) || containsSub pattern normalized_url

/-! ## Helper lemmas -/

lemma killOk_eq_true_iff (r : Except String Bool) : killOk r = true ↔ r = .ok true := by
  cases r with
  | ok b => cases b <;> simp [killOk]
  | error e => simp [killOk]

lemma foldl_count_aux (p : Nat → Bool) (l : List Nat) (n : Nat) :
    l.foldl (fun acc pid => if p pid then acc + 1 else acc) n = n + l.countP p := by
  induction l generalizing n with
  | nil => simp
  | cons a t ih =>
    rw [List.foldl_cons, ih, List.countP_cons]
    by_cases h : p a = true
    · simp [h]
      omega
    · simp [h]

lemma mem_storePush (l : List WebhookEvent) (e : WebhookEvent) : e ∈ storePush l e := by
  cases l with
  | nil => simp [storePush]
  | cons x xs =>
    simp only [storePush]
    split
    · simp
    · simp

lemma storePush_full (b : List WebhookEvent) (e : WebhookEvent) (h : b.length = 100) :
    storePush b e = b.drop 1 ++ [e] := by
  have hc : 100 < (b ++ [e]).length := by simp [h]
  simp only [storePush]
  rw [if_pos hc]
  cases b with
  | nil => simp at h
  | cons x xs => simp

lemma foldl_storePush (l : List WebhookEvent) :
    List.foldl storePush [] l = l.drop (l.length - 100) := by
  induction l using List.reverseRecOn with
  | nil => simp
  | append_singleton l e ih =>
    rw [List.foldl_append, List.foldl_cons, List.foldl_nil, ih]
    by_cases h : l.length ≤ 99
    · have h0 : l.length - 100 = 0 := by omega
      have h1 : (l ++ [e]).length - 100 = 0 := by simp; omega
      rw [h0, h1, List.drop_zero, List.drop_zero]
      simp only [storePush]
      rw [if_neg (by simp; omega)]
    · have hd : (l.drop (l.length - 100)).length = 100 := by
        simp only [List.length_drop]
        omega
      rw [storePush_full _ _ hd, List.drop_drop,
        List.drop_append_of_le_length
          (by simp only [List.length_append, List.length_cons, List.length_nil]; omega)]
      congr 2
      simp only [List.length_append, List.length_cons, List.length_nil]
      omega

lemma contains_star_of_starSuffix (p : List Char) (h : (s2l "/*").isSuffixOf p = true) :
    p.contains '*' = true := by
  rw [List.isSuffixOf_iff_suffix] at h
  obtain ⟨t, ht⟩ := h
  rw [← ht]
  simp [List.contains, s2l]

/-! ## Claim theorems -/

/-- C1 (counterexample): `detect_url` on the line
`Server running at http://localhost:5173/` returns the regex match
`http://localhost:5173`, which is not the claimed URL with a trailing
slash. -/
theorem detect_url_c1_counterexample :
    detect_url (s2l "Server running at http://localhost:5173/") =
      some (s2l "http://localhost:5173", 5173)
    ∧ s2l "http://localhost:5173" ≠ s2l "http://localhost:5173/" :=
  ⟨by decide, by decide⟩

/-- C1 (amended): `detect_url` returns URL `http://localhost:5173` (the URL
regex match, which stops at the port digits and excludes the trailing
slash) and port 5173 on the first line, the synthesized
`http://localhost:8080` with port 8080 on `ready on port 8080`, none on
`hello world`; and whenever the URL regex matches with a port that parses
as u16, that match is the result (URL detection takes precedence over the
bare-port heuristic; the Option result gives at most one endpoint per
line). -/
theorem detect_url_c1 :
    detect_url (s2l "Server running at http://localhost:5173/") =
      some (s2l "http://localhost:5173", 5173)
    ∧ detect_url (s2l "ready on port 8080") = some (s2l "http://localhost:8080", 8080)
    ∧ detect_url (s2l "hello world") = none
    ∧ (∀ (line full ds : List Char) (port : Nat),
        urlCapture line = some (full, ds) → parseU16 ds = some port →
        detect_url line = some (full, port)) := by
  refine ⟨by decide, by decide, by decide, ?_⟩
  intro line full ds port hurl hport
  simp [detect_url, hurl, hport]

/-- C1 (witness): on a line containing both a URL and a bare-port phrase,
the URL-style match wins. -/
theorem detect_url_c1_witness :
    detect_url (s2l "x http://localhost:9999/ ready on port 8080") =
      some (s2l "http://localhost:9999", 9999) :=
  detect_url_c1.2.2.2 (s2l "x http://localhost:9999/ ready on port 8080")
    (s2l "http://localhost:9999") (s2l "9999") 9999 (by decide) (by decide)

/-- C2 (counterexample): when neither kill-command invocation can be
spawned, `kill_process` fails the caller with an error (and retains the
registry entry), contradicting the claim that termination failures are
never reported as errors. -/
theorem kill_process_c2_counterexample :
    kill_process ⟨none, none, "No such file or directory (os error 2)"⟩ 42 [42] =
      (.error "Failed to kill: No such file or directory (os error 2)", [42]) := by
  decide

/-- C2 (amended): `kill_process` reports a delivered-but-unsuccessful kill
as `Ok(false)` — never as an error — whenever the bare-pid `kill` command
can be spawned, but it does fail the caller with an error when that command
cannot be spawned and the group kill did not succeed; the identifier is
removed from the registry exactly when the result is `Ok(true)`. -/
theorem kill_process_c2 :
    (∀ (g : Option Bool) (s : Bool) (e : String) (pid : Nat) (reg : List Nat),
      (kill_process ⟨g, some s, e⟩ pid reg).1 = .ok ((g == some true) || s))
    ∧ (∀ (e : String) (pid : Nat) (reg : List Nat),
        (kill_process ⟨some true, none, e⟩ pid reg).1 = .ok true)
    ∧ (∀ (g : Option Bool) (e : String) (pid : Nat) (reg : List Nat),
        g ≠ some true →
        (kill_process ⟨g, none, e⟩ pid reg).1 = .error ("Failed to kill: " ++ e))
    ∧ (∀ (env : KillEnv) (pid : Nat) (reg : List Nat),
        (kill_process env pid reg).2 =
          (if killOk (kill_process_internal env) then reg.erase pid else reg)
        ∧ (killOk (kill_process_internal env) = true ↔
            (kill_process env pid reg).1 = .ok true)) := by
  refine ⟨?_, ?_, ?_, ?_⟩
  · intro g s e pid reg
    cases g with
    | none => rfl
    | some b => cases b <;> rfl
  · intro e pid reg
    rfl
  · intro g e pid reg hg
    cases g with
    | none => rfl
    | some b =>
      cases b with
      | true => exact absurd rfl hg
      | false => rfl
  · intro env pid reg
    exact ⟨rfl, killOk_eq_true_iff _⟩

/-- C2 (witness): the amended characterization applied at concrete
environments. -/
theorem kill_process_c2_witness :
    (kill_process ⟨some false, none, "boom"⟩ 42 [42]).1 =
      .error ("Failed to kill: " ++ "boom")
    ∧ (kill_process ⟨none, some true, "e"⟩ 3 [3]).1 = .ok true :=
  ⟨kill_process_c2.2.2.1 (some false) "boom" 42 [42] (by decide),
    (kill_process_c2.2.2.2 ⟨none, some true, "e"⟩ 3 [3]).2.mp (by decide)⟩

/-- C5 (confirmed): starting the webhook server while the singleton exists
fails with the already-running error and leaves the existing server (its
bound port and event buffer included) untouched, whatever the requested
port and bind outcome. -/
theorem start_webhook_c5 :
    ∀ (s : WebhookServerS) (p : Nat) (br : Except String Nat),
      start_webhook_server (some s) p br = (.error "Server is already running", some s) :=
  fun _ _ _ => rfl

/-- C6 (confirmed): `kill_all_processes` returns the number of snapshot
pids whose kill path reported success together with an unconditionally
cleared registry; on the empty registry it returns 0 and the registry stays
empty. -/
theorem kill_all_c6 :
    (∀ (envf : Nat → KillEnv) (reg : List Nat),
      kill_all_processes envf reg =
        (reg.countP (fun pid => killOk (kill_process_internal (envf pid))), []))
    ∧ (∀ envf : Nat → KillEnv, kill_all_processes envf [] = (0, [])) := by
  constructor
  · intro envf reg
    simp only [kill_all_processes]
    rw [foldl_count_aux]
    simp
  · intro envf
    rfl

/-- C8 (counterexample): when the tracked ngrok child's wait fails, the
child was already taken out of the slot, so nothing is tracked afterwards —
contradicting the claim that after a failed wait the identifier is still
tracked. -/
theorem stop_ngrok_c8_counterexample :
    stop_ngrok (some ⟨.ok (), .error "timeout"⟩) =
      (.error "Failed to wait for ngrok: timeout", none)
    ∧ (none : Option ChildProc) ≠ some ⟨.ok (), .error "timeout"⟩ :=
  ⟨rfl, by decide⟩

/-- C8 (amended): `stop_ngrok` fails with the not-running error when no
child is tracked; otherwise it removes the child from the tracked slot
first and then kills and waits, propagating an error when the kill or the
wait fails — and in every non-NotRunning case (success or failure) the
tracked slot is left empty. -/
theorem stop_ngrok_c8 :
    stop_ngrok (none : Option ChildProc) = (.error "ngrok is not running", none)
    ∧ (∀ c : ChildProc, (stop_ngrok (some c)).2 = none)
    ∧ (∀ (e : String) (w : Except String Unit),
        stop_ngrok (some ⟨.error e, w⟩) = (.error ("Failed to kill ngrok: " ++ e), none))
    ∧ (∀ e : String, stop_ngrok (some ⟨.ok (), .error e⟩) =
        (.error ("Failed to wait for ngrok: " ++ e), none))
    ∧ stop_ngrok (some ⟨.ok (), .ok ()⟩) = ((.ok () : Except String Unit), none) := by
  refine ⟨rfl, ?_, fun e w => rfl, fun e => rfl, rfl⟩
  intro c
  obtain ⟨k, w⟩ := c
  cases k with
  | ok u => cases w <;> rfl
  | error e => rfl

/-- C9 (confirmed): `get_ngrok_status` answers `Ok(None)` when no child is
tracked, independently of the network oracle (no network call); with a
tracked child a transport failure of the query or a JSON decode failure of
the response surfaces as an error, while zero tunnels or an empty (or
absent) first public URL yield the non-error `Ok(None)`. -/
theorem get_ngrok_status_c9 :
    (∀ net net2 : NgrokNet,
      get_ngrok_status none net = .ok none
      ∧ get_ngrok_status none net = get_ngrok_status none net2)
    ∧ (∀ (c : ChildProc) (e : String),
        get_ngrok_status (some c) (.sendErr e) = .error ("Failed to query ngrok: " ++ e))
    ∧ (∀ (c : ChildProc) (e : String),
        get_ngrok_status (some c) (.resp true (.error e)) =
          .error ("Failed to parse ngrok response: " ++ e))
    ∧ (∀ c : ChildProc,
        get_ngrok_status (some c) (.resp true (.ok (some []))) = .ok none)
    ∧ (∀ (c : ChildProc) (hc cc : Option Nat) (rest : List TunnelJson),
        get_ngrok_status (some c) (.resp true (.ok (some (⟨some "", hc, cc⟩ :: rest)))) =
          .ok none
        ∧ get_ngrok_status (some c) (.resp true (.ok (some (⟨none, hc, cc⟩ :: rest)))) =
            .ok none) := by
  refine ⟨fun net net2 => ⟨rfl, rfl⟩, fun c e => rfl, fun c e => rfl, fun c => rfl, ?_⟩
  intro c hc cc rest
  constructor
  · simp [get_ngrok_status]
  · simp [get_ngrok_status]

/-- C10 (confirmed): when spawning the ngrok binary fails, `start_ngrok`
reports the launch error with nothing tracked afterwards; any previously
tracked child was killed and waited for beforehand (the effect trace), and
a subsequent `get_ngrok_status` returns `Ok(None)` for every network
oracle without consulting it. -/
theorem start_ngrok_c10 :
    (∀ (c : ChildProc) (e : String),
      start_ngrok (some c) (.error e) =
        (.error ("Failed to start ngrok: " ++ e ++ ". Make sure ngrok is installed."),
          none, [NgrokEffect.killOld, NgrokEffect.waitOld, NgrokEffect.trySpawn]))
    ∧ (∀ e : String,
        start_ngrok none (.error e) =
          (.error ("Failed to start ngrok: " ++ e ++ ". Make sure ngrok is installed."),
            none, [NgrokEffect.trySpawn]))
    ∧ (∀ (slot : Option ChildProc) (e : String) (net : NgrokNet),
        get_ngrok_status (start_ngrok slot (.error e)).2.1 net = .ok none) := by
  refine ⟨fun c e => rfl, fun e => rfl, ?_⟩
  intro slot e net
  cases slot <;> rfl

lemma handle_webhook_body (events : List WebhookEvent) (m p q : String)
    (hs : List (String × String)) (i : String) (t : Int) (body : List Nat) :
    (handle_webhook events m p q hs i t body).2.1.body =
      (if body.length ≤ bodyLimit then body else []) := by
  by_cases hb : body.length ≤ bodyLimit
  · simp [handle_webhook, to_bytes, hb]
  · simp [handle_webhook, to_bytes, hb]

/-- C3 (counterexample): a request body one byte over the 1 MiB cap is
stored as the empty body (the `to_bytes` length-limit failure hits
`unwrap_or_default`), not as its first 1 MiB. -/
theorem handle_webhook_c3_counterexample :
    (handle_webhook [] "POST" "/hook" "" [] "id0" 0
        (List.replicate (bodyLimit + 1) 0)).2.1.body = ([] : List Nat)
    ∧ (List.replicate (bodyLimit + 1) (0 : Nat)).take bodyLimit ≠ ([] : List Nat) := by
  constructor
  · rw [handle_webhook_body]
    rw [if_neg (by rw [List.length_replicate]; omega)]
  · rw [List.take_replicate]
    have hmin : min bodyLimit (bodyLimit + 1) = bodyLimit := by omega
    rw [hmin]
    intro hnil
    have hlen := congrArg List.length hnil
    rw [List.length_replicate, List.length_nil] at hlen
    exact absurd hlen (by decide)

/-- C3 (amended): every accepted request is answered 200 and its event is
recorded in the buffer; a body within the 1 MiB cap is stored verbatim,
while a body exceeding the cap is stored as the empty body (the failed
capped read defaults to empty — the request is not rejected, but the body
is dropped rather than truncated to its first 1 MiB). -/
theorem handle_webhook_c3 :
    ∀ (events : List WebhookEvent) (m p q : String) (hs : List (String × String))
      (i : String) (t : Int) (body : List Nat),
      (handle_webhook events m p q hs i t body).2.2 = 200
      ∧ (handle_webhook events m p q hs i t body).2.1 ∈
          (handle_webhook events m p q hs i t body).1
      ∧ (handle_webhook events m p q hs i t body).2.1.body =
          (if body.length ≤ bodyLimit then body else []) := by
  intro events m p q hs i t body
  exact ⟨rfl, mem_storePush _ _, handle_webhook_body _ _ _ _ _ _ _ _⟩

/-- C4 (confirmed): the webhook buffer never exceeds 100 entries; appending
to a full 100-entry buffer drops the oldest entry and appends the new one
(FIFO), after 150 appends the buffer holds exactly the last 100 events in
arrival order, and `get_webhook_events` returns the buffer as stored
(oldest first). -/
theorem webhook_buffer_c4 :
    (∀ l : List WebhookEvent, (List.foldl storePush [] l).length ≤ 100)
    ∧ (∀ (b : List WebhookEvent) (e : WebhookEvent),
        b.length = 100 → storePush b e = b.drop 1 ++ [e])
    ∧ (∀ l : List WebhookEvent, l.length = 150 →
        List.foldl storePush [] l = l.drop 50)
    ∧ (∀ s : WebhookServerS, get_webhook_events (some s) = s.events)
    ∧ get_webhook_events none = [] := by
  refine ⟨?_, storePush_full, ?_, fun s => rfl, rfl⟩
  · intro l
    rw [foldl_storePush]
    simp only [List.length_drop]
    omega
  · intro l h
    rw [foldl_storePush, h]

/-- C4 (witness): the full-buffer eviction step and the 150-append run,
instantiated with concrete events. -/
theorem webhook_buffer_c4_witness :
    storePush (List.replicate 100 ⟨"id0", 0, "/", "GET", [], [], ""⟩)
        ⟨"id1", 1, "/", "GET", [], [], ""⟩ =
      (List.replicate 100 ⟨"id0", 0, "/", "GET", [], [], ""⟩).drop 1 ++
        [⟨"id1", 1, "/", "GET", [], [], ""⟩]
    ∧ List.foldl storePush [] (List.replicate 150 ⟨"id0", 0, "/", "GET", [], [], ""⟩) =
        (List.replicate 150 ⟨"id0", 0, "/", "GET", [], [], ""⟩).drop 50 :=
  ⟨webhook_buffer_c4.2.1 _ _ (by simp),
    webhook_buffer_c4.2.2.1 _ (by simp)⟩

/-- C7 (counterexample): the star-free pattern `github.com/org/repo` also
matches the URL `https://github.com/org/repo2`, whose normalized form is
not the pattern — the code matches star-free patterns by equality OR
substring containment, not only by the exact normalized counterpart. -/
theorem pattern_matches_c7_counterexample :
    pattern_matches (s2l "github.com/org/repo") (s2l "https://github.com/org/repo2") = true
    ∧ normalize_url (s2l "https://github.com/org/repo2") ≠ s2l "github.com/org/repo" :=
  ⟨by decide, by decide⟩

/-- C7 (amended): `github.com/org/*` matches `https://github.com/org/repo.git`
and `git@github.com:org/repo` but not `https://github.com/other/repo`; `*`
matches every URL; and a pattern containing no star matches exactly the
URLs whose normalized form equals the pattern or contains it as a
substring. -/
theorem pattern_matches_c7 :
    pattern_matches (s2l "github.com/org/*") (s2l "https://github.com/org/repo.git") = true
    ∧ pattern_matches (s2l "github.com/org/*") (s2l "git@github.com:org/repo") = true
    ∧ pattern_matches (s2l "github.com/org/*") (s2l "https://github.com/other/repo") = false
    ∧ (∀ url : List Char, pattern_matches (s2l "*") url = true)
    ∧ (∀ p url : List Char, p.contains '*' = false →
        pattern_matches p url =
          ((normalize_url url == p) || containsSub p (normalize_url url))) := by
  refine ⟨by decide, by decide, by decide, fun url => rfl, ?_⟩
  intro p url h
  have h1 : ¬(p = s2l "*") := by
    intro he
    rw [he] at h
    simp [s2l] at h
  have h2 : ¬((s2l "/*").isSuffixOf p = true) := by
    intro hs
    rw [contains_star_of_starSuffix p hs] at h
    exact absurd h (by simp)
  have h3 : ¬(p.contains '*' = true) := by
    rw [h]
    simp
  simp only [pattern_matches, if_neg h1, if_neg h2, if_neg h3]

/-- C7 (witness): the star-free characterization applied at a concrete
pattern and URL. -/
theorem pattern_matches_c7_witness :
    pattern_matches (s2l "github.com/org/repo") (s2l "https://github.com/org/repo2") =
      ((normalize_url (s2l "https://github.com/org/repo2") == s2l "github.com/org/repo")
        || containsSub (s2l "github.com/org/repo")
            (normalize_url (s2l "https://github.com/org/repo2"))) :=
  pattern_matches_c7.2.2.2.2 (s2l "github.com/org/repo")
    (s2l "https://github.com/org/repo2") (by decide)

end DevLaunch
